import Mathlib

/-!
Verification development for the keyword-trigger / deduplication engine and
the pagination / lifecycle manager of the `discord-_insight_bot` repository.

The Python sources are shallowly embedded: message text is `List Char`
(Python `str` is a sequence of code points, matching `List Char` length and
indexing), the compiled regular expressions of `cogs/qa_handler.py` are
terms of a small regex AST `Rx` with a fuel-based backtracking matcher
whose semantics follow Python `re` (`re.IGNORECASE | re.UNICODE`, no
`re.MULTILINE`), and the stateful handlers become explicit state-passing
functions.  Definitions carry comments pointing at the file and lines they
embed.
-/

namespace InsightBot

/-- Message text: Python `str` as a list of characters. -/
abbrev Text := List Char

/-- Conversion from Lean string literals to `Text`. -/
def toText (s : String) : Text := s.data

/-- Python `str.isspace` / the characters stripped by `str.strip()` and
matched by the regex class `\s` (ASCII part; the inputs considered here
contain no exotic Unicode whitespace). -/
def isPyWS (c : Char) : Bool :=
  c == ' ' || c == '\t' || c == '\n' || c == '\r' || c == '\x0b' || c == '\x0c'

/-- Right half of Python `str.strip()`: drop trailing whitespace. -/
def pyStripRight (s : Text) : Text := (s.reverse.dropWhile isPyWS).reverse

/-- Python `str.strip()`: drop trailing whitespace, then leading whitespace
(the order of the two halves is immaterial). -/
def pyStrip (s : Text) : Text := (pyStripRight s).dropWhile isPyWS

/-- Python `\w` under `re.UNICODE`: ASCII alphanumerics, underscore, and
non-ASCII word characters (CJK characters are word characters in Python). -/
def isWordChar (c : Char) : Bool :=
  c.isAlphanum || c == '_' || decide (128 ≤ c.toNat)

/-- Regular-expression AST covering exactly the constructs used by the
patterns in `cogs/qa_handler.py`: literals, `.`, character classes, `\s`,
`\b`, `^`, `$`, concatenation, alternation (`|`, `(?:...)`, `(...)`), `*`
and (via `rplus`) `+`. -/
inductive Rx where
  | eps : Rx
  | lit : Char → Rx
  | dot : Rx
  | cls : List Char → Rx
  | ws : Rx
  | wb : Rx
  | bol : Rx
  | eol : Rx
  | seq : Rx → Rx → Rx
  | alt : Rx → Rx → Rx
  | star : Rx → Rx
deriving DecidableEq

/-- Size of a regex term, used only to compute a sufficient fuel bound. -/
def rxSize : Rx → Nat
  | .eps => 1
  | .lit _ => 1
  | .dot => 1
  | .cls _ => 1
  | .ws => 1
  | .wb => 1
  | .bol => 1
  | .eol => 1
  | .seq a b => rxSize a + rxSize b + 1
  | .alt a b => rxSize a + rxSize b + 1
  | .star a => rxSize a + 1

/-- Is position `i` of `s` occupied by a word character (`false` beyond the
ends), used for `\b`. -/
def wordAt (s : Text) (i : Nat) : Bool :=
  match s[i]? with
  | some d => isWordChar d
  | none => false

/-- Backtracking matcher in continuation style.  `matchAt fuel r s i k`
tries to match `r` in `s` starting at offset `i` and calls `k` on the end
offset of every candidate match.  Case-insensitivity (`re.IGNORECASE`) is
applied by lowercasing the subject character; all embedded patterns are
written lowercase.  `.` does not match `'\n'`; `^` matches only at offset 0
and `$` at the end or before a final `'\n'` (no `re.MULTILINE`), exactly as
in Python.  The `i < j` guard in `star` skips empty repetitions, which
preserves the matched language and bounds the recursion, so any
`fuel ≥ (rxSize r + 2) * (s.length + 2)` yields the true match semantics. -/
def matchAt : Nat → Rx → Text → Nat → (Nat → Bool) → Bool
  | 0, _, _, _, _ => false
  | fuel + 1, r, s, i, k =>
    match r with
    | .eps => k i
    | .lit c =>
      match s[i]? with
      | some d => d.toLower == c && k (i + 1)
      | none => false
    | .dot =>
      match s[i]? with
      | some d => d != '\n' && k (i + 1)
      | none => false
    | .cls cs =>
      match s[i]? with
      | some d => cs.contains d.toLower && k (i + 1)
      | none => false
    | .ws =>
      match s[i]? with
      | some d => isPyWS d && k (i + 1)
      | none => false
    | .wb =>
      ((if i = 0 then false else wordAt s (i - 1)) != wordAt s i) && k i
    | .bol => i == 0 && k i
    | .eol => (i == s.length || (i + 1 == s.length && s[i]? == some '\n')) && k i
    | .seq a b => matchAt fuel a s i (fun j => matchAt fuel b s j k)
    | .alt a b => matchAt fuel a s i k || matchAt fuel b s i k
    | .star a =>
      k i || matchAt fuel a s i (fun j => decide (i < j) && matchAt fuel (.star a) s j k)

/-- Python `re.search`: does `r` match anywhere in `s`?  Tries every start
offset from 0 to `s.length`, like the scanning loop of `re.search`. -/
def rsearch (r : Rx) (s : Text) : Bool :=
  (List.range (s.length + 1)).any fun i =>
    matchAt ((rxSize r + 2) * (s.length + 2)) r s i (fun _ => true)

/-- A sequence of literal characters, e.g. the pattern `sillytavern`. -/
def rstr (s : String) : Rx := (s.data.map Rx.lit).foldr Rx.seq Rx.eps

/-- Alternation of a list of branches, e.g. `(error|错误|问题)`. -/
def ralts : List Rx → Rx
  | [] => Rx.eps
  | [r] => r
  | r :: rs => Rx.alt r (ralts rs)

/-- `+`: one repetition followed by `*`. -/
def rplus (r : Rx) : Rx := Rx.seq r (Rx.star r)

/-- A character class `[...]` given by its member characters. -/
def rcls (s : String) : Rx := Rx.cls s.data

/-- `.*` -/
def rdotStar : Rx := Rx.star Rx.dot

/-- `\s*` -/
def rwsStar : Rx := Rx.star Rx.ws

/-! ### The trigger patterns of `cogs/qa_handler.py`

`QAHandlerCog.__init__` (lines 32–53) fixes the 19 built-in
`default_keyword_patterns`; lines 68–77 fix the three `exclude_patterns`.
Each Lean term below is the AST of the regex-source string it is commented
with, compiled with `re.IGNORECASE | re.UNICODE` (the matcher lowercases
the subject; the patterns are written lowercase). -/

/-- The compiled built-in patterns, in source order (`compiled_patterns`
after `_load_dynamic_keywords` falls back to the defaults, or before any
dynamic keyword is loaded). -/
def defaultCompiledPatterns : List Rx :=
  [ rstr "sillytavern",                                         -- r'sillytavern'
    Rx.seq (rstr "silly") (Rx.seq rwsStar (rstr "tavern")),     -- r'silly\s*tavern'
    Rx.seq (rstr "st") (Rx.seq (rplus Rx.ws)
      (ralts [rstr "error", rstr "错误", rstr "问题", rstr "bug", rstr "报错"])),
                                                                -- r'st\s+(error|错误|问题|bug|报错)'
    Rx.seq (rstr "tavern") (Rx.seq rdotStar
      (ralts [rstr "error", rstr "错误", rstr "问题", rstr "报错", rstr "bug"])),
                                                                -- r'tavern.*(error|错误|问题|报错|bug)'
    Rx.seq (ralts [rstr "openai", rstr "claude", rstr "gemini"]) (Rx.seq rdotStar
      (ralts [rstr "api", rstr "连接", rstr "error", rstr "错误", rstr "key"])),
                                                                -- r'(openai|claude|gemini).*(api|连接|error|错误|key)'
    Rx.seq (rstr "character") (Rx.seq rwsStar (rstr "card")),   -- r'character\s*card'
    rstr "角色卡",                                              -- r'角色卡'
    Rx.seq (rstr "chat") (Rx.seq rwsStar (rstr "completion")),  -- r'chat\s*completion'
    rstr "聊天完成",                                            -- r'聊天完成'
    Rx.seq (rstr "connection") (Rx.seq rwsStar (rstr "failed")), -- r'connection\s*failed'
    rstr "连接失败",                                            -- r'连接失败'
    Rx.seq (rstr "api") (Rx.seq rwsStar
      (ralts [rstr "key", rstr "error", rstr "错误", rstr "问题"])),
                                                                -- r'api\s*(key|error|错误|问题)'
    Rx.seq (rstr "context") (Rx.seq rdotStar (rstr "length")),  -- r'context.*length'
    Rx.seq (rstr "上下文") (Rx.seq rdotStar (rstr "长度")),     -- r'上下文.*长度'
    Rx.seq (ralts [rstr "配置", rstr "setting", rstr "config"]) (Rx.seq rdotStar
      (ralts [rstr "error", rstr "错误", rstr "问题"])),
                                                                -- r'(配置|setting|config).*(error|错误|问题)'
    Rx.seq Rx.wb (Rx.seq (rstr "st") Rx.wb),                    -- r'\bst\b'
    rstr "测试机器人",                                          -- r'测试机器人'
    Rx.seq (rstr "help") (Rx.seq rdotStar (rstr "sillytavern")), -- r'help.*sillytavern'
    Rx.seq (rstr "sillytavern") (Rx.seq rdotStar (rstr "help")) -- r'sillytavern.*help'
  ]

/-- The compiled `exclude_patterns` (lines 68–77), in source order:
symbol-prefixed messages, pure greetings, pure thanks.  The greeting and
thanks patterns are anchored with `^...$`: they match only messages that
are entirely a greeting / a thanks (up to surrounding whitespace). -/
def excludeCompiled : List Rx :=
  [ Rx.seq Rx.bol (Rx.seq rwsStar (rplus (rcls "!/@#$%^&*()"))), -- r'^\s*[!/@#$%^&*()]+'
    Rx.seq Rx.bol (Rx.seq rwsStar (Rx.seq (ralts [rstr "hi", rstr "hello", rstr "你好"])
      (Rx.seq rwsStar Rx.eol))),                                 -- r'^\s*(?:hi|hello|你好)\s*$'
    Rx.seq Rx.bol (Rx.seq rwsStar (Rx.seq (ralts [rstr "thanks", rstr "谢谢", rstr "thx"])
      (Rx.seq rwsStar Rx.eol)))                                  -- r'^\s*(?:thanks|谢谢|thx)\s*$'
  ]

/-- The `help_keywords` of `_should_analyze_image` (lines 222–228). -/
def helpKeywordsCompiled : List Rx :=
  [ ralts [rstr "help", rstr "帮助", rstr "求助"],
    ralts [rstr "error", rstr "错误", rstr "报错", rstr "bug"],
    ralts [rstr "problem", rstr "问题", rstr "issue"],
    ralts [rstr "什么意思", rstr "怎么办", rstr "怎么解决"],
    ralts [rstr "看看", rstr "分析", rstr "诊断"] ]

/-- The filename heuristic of `_should_analyze_image` (line 236):
`r'error|screenshot|config|设置|错误'`. -/
def filenameCompiled : Rx :=
  ralts [rstr "error", rstr "screenshot", rstr "config", rstr "设置", rstr "错误"]

/-! ### Messages, configuration and the trigger engine (`cogs/qa_handler.py`) -/

/-- A Discord attachment as seen by the handler: its declared content type
(`None` when Discord supplies none) and its filename. -/
structure Attachment where
  contentType : Option Text
  filename : Text
deriving DecidableEq

/-- The fields of a `discord.Message` that the trigger engine reads. -/
structure Msg where
  id : Nat
  authorIsBot : Bool
  content : Text
  channelId : Nat
  attachments : List Attachment
deriving DecidableEq

/-- The configuration inputs read by the trigger engine (`config.py`):
the channel allow-list `MONITOR_CHANNELS` and the two global toggles. -/
structure BotConfig where
  monitorChannels : List Nat
  autoReplyEnabled : Bool
  keywordTriggerEnabled : Bool
deriving DecidableEq

/-- `config.should_monitor_channel` (config.py lines 72–76): an empty
allow-list means every channel is monitored. -/
def shouldMonitorChannel (cfg : BotConfig) (channelId : Nat) : Bool :=
  if cfg.monitorChannels = [] then true else decide (channelId ∈ cfg.monitorChannels)

/-- Does the message text start with one of the command prefixes
`('/', '!', '?', '.')` (qa_handler.py line 172)? -/
def startsWithCmd : Text → Bool
  | [] => false
  | c :: _ => c == '/' || c == '!' || c == '?' || c == '.'

/-- `_should_process_message` (qa_handler.py lines 149–175): the chain of
early `return False` checks — bot author, empty content with no
attachments, already-processed id, unmonitored channel, auto-reply off,
command prefix. -/
def shouldProcessMessage (cfg : BotConfig) (processed : List Nat) (m : Msg) : Bool :=
  if m.authorIsBot then false
  else if pyStrip m.content = [] ∧ m.attachments = [] then false
  else if m.id ∈ processed then false
  else if shouldMonitorChannel cfg m.channelId = false then false
  else if cfg.autoReplyEnabled = false then false
  else if startsWithCmd m.content then false
  else true

/-- `_contains_trigger_keywords` (qa_handler.py lines 177–196): disabled
toggle or empty text give `false`; then the exclusion list is scanned and
any match returns `false`; then the compiled patterns are scanned and the
first match returns `true` (the dynamic-counter side effect of a dynamic
match does not affect the Boolean result).  `compiled` is the engine's
current `compiled_patterns` snapshot. -/
def containsTriggerKeywords (keywordTriggerEnabled : Bool) (compiled : List Rx)
    (text : Text) : Bool :=
  if keywordTriggerEnabled = false ∨ text = [] then false
  else if excludeCompiled.any (fun p => rsearch p text) then false
  else compiled.any (fun p => rsearch p text)

/-- Does an attachment count as an image (`att.content_type and
att.content_type.startswith('image/')`, qa_handler.py line 215)? -/
def isImageAttachment (a : Attachment) : Bool :=
  match a.contentType with
  | some ct => ct ≠ [] && (toText "image/").isPrefixOf ct
  | none => false

/-- `_should_analyze_image` (qa_handler.py lines 206–239): requires an
image attachment, and either a help-intent keyword in the message text or
an error/screenshot-intent filename on some image attachment. -/
def shouldAnalyzeImage (m : Msg) : Bool :=
  if m.attachments = [] then false
  else
    let imageAttachments := m.attachments.filter isImageAttachment
    if imageAttachments = [] then false
    else if helpKeywordsCompiled.any (fun r => rsearch r m.content) then true
    else imageAttachments.any (fun a => rsearch filenameCompiled a.filename)

/-- A downstream delegation performed by `on_message`. -/
inductive Delegation where
  | keywordTrigger : Delegation
  | imageTrigger : Delegation
deriving DecidableEq

/-- `on_message` (qa_handler.py lines 116–139): after the single
`_should_process_message` gate, the keyword block runs
`_handle_keyword_trigger` when `_contains_trigger_keywords` holds, and
then — with no `return` in between and no re-check of the processed
cache — the image block runs `_handle_image_trigger` when the message has
attachments and `_should_analyze_image` holds.  The result lists the
handlers invoked for the message, in order. -/
def onMessageDelegations (cfg : BotConfig) (processed : List Nat) (compiled : List Rx)
    (m : Msg) : List Delegation :=
  if shouldProcessMessage cfg processed m = false then []
  else
    (if containsTriggerKeywords cfg.keywordTriggerEnabled compiled m.content
     then [Delegation.keywordTrigger] else [])
    ++ (if m.attachments ≠ [] ∧ shouldAnalyzeImage m = true
        then [Delegation.imageTrigger] else [])

/-! ### The processed-message cache (`cogs/qa_handler.py` lines 27–29 and 413–422)

`self.processed_messages` is a Python `set`; `_mark_message_processed`
adds the id and, once `len > cache_max_size` (1000), calls `set.pop()`
`len - cache_max_size // 2` times.  `set.pop()` removes *an arbitrary
element* (its choice depends on the hash-table layout), so the embedding
takes the eviction choice as an oracle `choose` that picks which index of
the current contents (in insertion order) each `pop()` removes. -/

/-- `set.add`: membership-preserving insertion, keeping insertion order in
the model so eviction policies can be discussed. -/
def setAdd (c : List Nat) (x : Nat) : List Nat :=
  if x ∈ c then c else c ++ [x]

/-- One `set.pop()` under eviction oracle `choose` (the index is taken
modulo the size so any oracle is admissible; `pop` on an empty set cannot
occur in the embedded code path). -/
def setPop (choose : List Nat → Nat) (c : List Nat) : List Nat :=
  if c = [] then [] else c.eraseIdx (choose c % c.length)

/-- `n` successive `set.pop()` calls. -/
def popN (choose : List Nat → Nat) : Nat → List Nat → List Nat
  | 0, c => c
  | n + 1, c => popN choose n (setPop choose c)

/-- `_mark_message_processed` (lines 413–422): add, then if the size
exceeds `maxSize` remove `size - maxSize / 2` arbitrary elements. -/
def markMessageProcessed (choose : List Nat → Nat) (maxSize : Nat)
    (c : List Nat) (id : Nat) : List Nat :=
  let c1 := setAdd c id
  if maxSize < c1.length then popN choose (c1.length - maxSize / 2) c1 else c1

/-- Insert a sequence of message ids into an initially empty cache. -/
def insertAll (choose : List Nat → Nat) (maxSize : Nat) (ids : List Nat) : List Nat :=
  ids.foldl (markMessageProcessed choose maxSize) []

/-- An eviction oracle that always pops the most recently inserted element
(admissible for `set.pop()`, which removes an arbitrary element). -/
def lastChoose : List Nat → Nat := fun c => c.length - 1

/-- The oldest-first eviction oracle (strict FIFO). -/
def fifoChoose : List Nat → Nat := fun _ => 0

/-! ### Dynamic-keyword reload (`_load_dynamic_keywords`, qa_handler.py lines 86–114)

The body assigns `keyword_patterns := defaults + dynamic` and then
recompiles every pattern in one list comprehension inside the `try:` block;
a single malformed pattern raises `re.error` there, and the `except`
handler resets both `keyword_patterns` and `compiled_patterns` to the
defaults alone.  The store contents (`database.get_regex_keywords`, whose
implementation is outside the trigger engine) are a parameter. -/

/-- Does a pattern string compile under `re.compile`?  Modelled as a
balanced-parenthesis check, which captures the malformed-pattern failure
mode exercised here (an unbalanced group such as `"("` raises `re.error`;
every built-in pattern is balanced). -/
def parenDepthOk : Text → Nat → Bool
  | [], 0 => true
  | [], _ + 1 => false
  | '(' :: r, d => parenDepthOk r (d + 1)
  | ')' :: _, 0 => false
  | ')' :: r, d + 1 => parenDepthOk r d
  | _ :: r, d => parenDepthOk r d

/-- `re.compile(p)` succeeds. -/
def pyCompileOk (p : Text) : Bool := parenDepthOk p 0

/-- The 19 `default_keyword_patterns` source strings (qa_handler.py
lines 32–53), as stored before compilation. -/
def defaultKeywordPatterns : List Text :=
  [ toText "sillytavern",
    toText "silly\\s*tavern",
    toText "st\\s+(error|错误|问题|bug|报错)",
    toText "tavern.*(error|错误|问题|报错|bug)",
    toText "(openai|claude|gemini).*(api|连接|error|错误|key)",
    toText "character\\s*card",
    toText "角色卡",
    toText "chat\\s*completion",
    toText "聊天完成",
    toText "connection\\s*failed",
    toText "连接失败",
    toText "api\\s*(key|error|错误|问题)",
    toText "context.*length",
    toText "上下文.*长度",
    toText "(配置|setting|config).*(error|错误|问题)",
    toText "\\bst\\b",
    toText "测试机器人",
    toText "help.*sillytavern",
    toText "sillytavern.*help" ]

/-- The `try:` block of `_load_dynamic_keywords`: merge defaults with the
enabled dynamic patterns from the store and compile them all; the first
malformed pattern aborts the whole block with an exception. -/
def tryLoadKeywords (store : List Text) : Except Unit (List Text) :=
  if (defaultKeywordPatterns ++ store).all pyCompileOk
  then Except.ok (defaultKeywordPatterns ++ store)
  else Except.error ()

/-- `_load_dynamic_keywords` as a whole: the `except` handler catches any
compilation failure and restores the defaults alone ("如果加载失败，
至少确保默认关键词可用", lines 107–114).  The result is the handler's
active `keyword_patterns` after the reload. -/
def loadDynamicKeywords (store : List Text) : List Text :=
  match tryLoadKeywords store with
  | Except.ok ps => ps
  | Except.error _ => defaultKeywordPatterns

/-! ### Answer pagination (`utils/message_formatter.py`, `_create_answer_pages`, lines 391–432) -/

/-- The paragraph separator `'\n\n'`. -/
def nn : Text := ['\n', '\n']

/-- Python `answer.split('\n\n')`: scan left to right, cutting at each
non-overlapping occurrence of the two-character separator.  The
accumulator holds the current chunk reversed. -/
def splitNNAux : Text → Text → List Text
  | [], acc => [acc.reverse]
  | [c], acc => [(c :: acc).reverse]
  | c1 :: c2 :: r, acc =>
    if c1 = '\n' ∧ c2 = '\n' then acc.reverse :: splitNNAux r []
    else splitNNAux (c2 :: r) (c1 :: acc)

/-- `answer.split('\n\n')`. -/
def splitNN (s : Text) : List Text := splitNNAux s []

/-- The `while len(paragraph) > page_size` hard-split loop (lines 420–423):
emit `paragraph[:page_size-10] + "..."` and continue on
`"..." + paragraph[page_size-10:]`.  The loop shortens the paragraph by
`pageSize - 13` characters per round, so fuel `p.length` is plentiful for
any `pageSize ≥ 14` (the code is only ever called with 1000). -/
def hardSplitGo (pageSize : Nat) : Nat → Text → List Text × Text
  | 0, p => ([], p)
  | fuel + 1, p =>
    if pageSize < p.length then
      ((p.take (pageSize - 10) ++ toText "...") ::
          (hardSplitGo pageSize fuel (toText "..." ++ p.drop (pageSize - 10))).1,
        (hardSplitGo pageSize fuel (toText "..." ++ p.drop (pageSize - 10))).2)
    else ([], p)

/-- One iteration of the `for paragraph in paragraphs:` loop body
(lines 412–426).  State: the pages emitted so far and `current_page`. -/
def answerPageStep (pageSize : Nat) (st : List Text × Text) (para : Text) :
    List Text × Text :=
  if pageSize < st.2.length + para.length + 2 then
    if st.2 = [] then
      (st.1 ++ (hardSplitGo pageSize para.length para).1,
        (hardSplitGo pageSize para.length para).2 ++ nn)
    else
      (st.1 ++ [pyStrip st.2], para ++ nn)
  else
    (st.1, st.2 ++ (para ++ nn))

/-- The epilogue of `_create_answer_pages` (lines 428–432): append the
stripped `current_page` when non-blank, and fall back to
`[answer[:page_size]]` when no page was produced at all. -/
def emitPages (st : List Text × Text) (answer : Text) (pageSize : Nat) : List Text :=
  if pyStrip st.2 = [] then
    (if st.1 = [] then [answer.take pageSize] else st.1)
  else st.1 ++ [pyStrip st.2]

/-- `_create_answer_pages(answer, page_size)` (lines 391–432): short
answers are returned unchanged as a single page; otherwise the paragraph
loop runs and the epilogue finishes (`emitPages`). -/
def createAnswerPages (answer : Text) (pageSize : Nat) : List Text :=
  if answer.length ≤ pageSize then [answer]
  else emitPages ((splitNN answer).foldl (answerPageStep pageSize) ([], [])) answer pageSize

/-! ### Answer delivery with placeholder fallback (`cogs/ai_integration.py`, `_handle_question`)

The keyword-trigger (non-interaction) delivery path: lines 183–215 for the
paged branch and 231–253 for the plain branch.  Both wrap
`placeholder_message.edit(...)` in `try: ... except (discord.NotFound,
discord.HTTPException):` and fall back to `message.reply(...)`.  A failure
of the fallback itself propagates to the outer handler (lines 269–288),
which sends an error notice and never re-raises. -/

/-- The user-visible outcome events of one delivery. -/
inductive DeliveryEvent where
  | editedPlaceholder : DeliveryEvent
  | sentReply : DeliveryEvent
  | sentChannel : DeliveryEvent
  | errorNotice : DeliveryEvent
  | unhandled : DeliveryEvent
deriving DecidableEq

/-- The non-interaction delivery of a ready answer in `_handle_question`.
`paged` selects the `len(ai_response) > 1024` branch (the placeholder
protocol is identical in both, and the embedding keeps both arms);
`editFails` models the placeholder edit raising `NotFound`/`HTTPException`;
`replyFails` models the fallback reply itself raising, in which case the
outer `except` (lines 269–288) emits an error notice. -/
def handleQuestionDelivery (paged placeholder hasMessage editFails replyFails : Bool) :
    List DeliveryEvent :=
  if paged then
    if placeholder then
      if editFails then
        if replyFails then [DeliveryEvent.errorNotice] else [DeliveryEvent.sentReply]
      else [DeliveryEvent.editedPlaceholder]
    else if hasMessage then
      if replyFails then [DeliveryEvent.errorNotice] else [DeliveryEvent.sentReply]
    else [DeliveryEvent.sentChannel]
  else
    if placeholder then
      if editFails then
        if replyFails then [DeliveryEvent.errorNotice] else [DeliveryEvent.sentReply]
      else [DeliveryEvent.editedPlaceholder]
    else if hasMessage then
      if replyFails then [DeliveryEvent.errorNotice] else [DeliveryEvent.sentReply]
    else [DeliveryEvent.sentChannel]

/-! ### The pagination view (`utils/pagination_view.py`, `PaginationView`) -/

/-- A navigation action: the five buttons of the view. -/
inductive NavAction where
  | first : NavAction
  | prev : NavAction
  | next : NavAction
  | last : NavAction
  | delete : NavAction
deriving DecidableEq

/-- The state of a `PaginationView`: its pages, the display name of the
requester (`user_name`, the only identity the view stores), the cursor,
`max_pages`, the five buttons' `disabled` flags, and whether
`clear_items()` removed the controls. -/
structure PView where
  pages : List Text
  userName : Text
  currentPage : Nat
  maxPages : Nat
  firstDisabled : Bool
  prevDisabled : Bool
  nextDisabled : Bool
  lastDisabled : Bool
  deleteDisabled : Bool
  itemsCleared : Bool
deriving DecidableEq

/-- `PaginationView.__init__` (lines 15–35): cursor 0, `max_pages =
len(pages)`, the decorator-declared initial button states (`⏪` and `◀️`
start disabled, the rest enabled), and `clear_items()` when there is at
most one page. -/
def initView (pages : List Text) (userName : Text) : PView :=
  { pages := pages
    userName := userName
    currentPage := 0
    maxPages := pages.length
    firstDisabled := true
    prevDisabled := true
    nextDisabled := false
    lastDisabled := false
    deleteDisabled := false
    itemsCleared := decide (pages.length ≤ 1) }

/-- `update_buttons` (lines 77–86): a no-op for single-page views,
otherwise the four edge buttons are disabled exactly at their edges. -/
def updateButtons (v : PView) : PView :=
  if v.maxPages ≤ 1 then v
  else
    { v with
      firstDisabled := decide (v.currentPage = 0)
      prevDisabled := decide (v.currentPage = 0)
      nextDisabled := decide (v.currentPage = v.maxPages - 1)
      lastDisabled := decide (v.currentPage = v.maxPages - 1) }

/-- One button callback (lines 88–125).  The callbacks receive the
pressing user's interaction but never read its user: there is no
`interaction_check` and no stored requester id, so `actingUser` is
(faithfully) ignored.  `delete` only defers and deletes the Discord
message; it touches none of the view fields. -/
def applyAction (v : PView) (actingUser : Text) : NavAction → PView
  | NavAction.first => updateButtons { v with currentPage := 0 }
  | NavAction.prev =>
    updateButtons { v with currentPage :=
      if 0 < v.currentPage then v.currentPage - 1 else v.currentPage }
  | NavAction.next =>
    updateButtons { v with currentPage :=
      if v.currentPage < v.maxPages - 1 then v.currentPage + 1 else v.currentPage }
  | NavAction.last => updateButtons { v with currentPage := v.maxPages - 1 }
  | NavAction.delete => v

/-- A sequence of button presses, each by some user. -/
def applyActions (v : PView) (acts : List (Text × NavAction)) : PView :=
  acts.foldl (fun w ua => applyAction w ua.1 ua.2) v

/-! ### `_handle_keyword_trigger` (qa_handler.py lines 241–357)

Inside `try:`, the handler first calls `_mark_message_processed`
(line 245), then sends the placeholder reply, then records the trigger
event, then delegates to the AI cog (`_handle_image_analysis` when the
message carries an image attachment, else `_handle_question`).  The
`except` clause (lines 350–357) only logs; it does not undo the cache
insertion.  `FailPoint` says which awaited step, if any, raises. -/

/-- Steps of `_handle_keyword_trigger` visible to this model, in
execution order. -/
inductive KTEvent where
  | marked : KTEvent
  | placeholderSent : KTEvent
  | recorded : KTEvent
  | delegatedImage : KTEvent
  | delegatedText : KTEvent
  | errorLogged : KTEvent
deriving DecidableEq

/-- Which step of the handler raises (the cache insertion itself is
synchronous and cannot raise). -/
inductive FailPoint where
  | noFail : FailPoint
  | atPlaceholder : FailPoint
  | atRecord : FailPoint
  | atDelegate : FailPoint
deriving DecidableEq

/-- First image attachment of the message (lines 251–255). -/
def firstImageAttachment (m : Msg) : Option Attachment :=
  m.attachments.find? isImageAttachment

/-- `_handle_keyword_trigger`: returns the cache after the call and the
ordered list of performed steps. -/
def handleKeywordTrigger (choose : List Nat → Nat) (maxSize : Nat)
    (cache : List Nat) (m : Msg) (fp : FailPoint) : List Nat × List KTEvent :=
  let cache1 := markMessageProcessed choose maxSize cache m.id
  match fp with
  | FailPoint.atPlaceholder => (cache1, [KTEvent.marked, KTEvent.errorLogged])
  | FailPoint.atRecord =>
    (cache1, [KTEvent.marked, KTEvent.placeholderSent, KTEvent.errorLogged])
  | FailPoint.atDelegate =>
    (cache1, [KTEvent.marked, KTEvent.placeholderSent, KTEvent.recorded,
      KTEvent.errorLogged])
  | FailPoint.noFail =>
    (cache1, [KTEvent.marked, KTEvent.placeholderSent, KTEvent.recorded,
      if (firstImageAttachment m).isSome then KTEvent.delegatedImage
      else KTEvent.delegatedText])

/-! ## Concrete fixtures -/

/-- A configuration with every toggle on and an empty allow-list (all
channels monitored). -/
def cfgAllOn : BotConfig :=
  { monitorChannels := [], autoReplyEnabled := true, keywordTriggerEnabled := true }

/-- A human message whose text matches the trigger keyword `sillytavern`
and the help-intent keyword `error`, carrying a PNG attachment whose
filename also matches the screenshot heuristic. -/
def msgBoth : Msg :=
  { id := 100
    authorIsBot := false
    content := toText "sillytavern error"
    channelId := 1
    attachments := [{ contentType := some (toText "image/png"),
                      filename := toText "error.png" }] }

/-! ## Theorems -/

/-- C1: the claim says at most one downstream delegation occurs per
message, never both.  The code violates this: `on_message` has no `return`
after the keyword block and never re-consults the processed cache, so for
`msgBoth` — which matches a trigger keyword *and* carries a qualifying
image attachment — both `_handle_keyword_trigger` and
`_handle_image_trigger` are invoked for the one message (each sending its
own placeholder and delegating its own analysis). -/
theorem onMessage_fires_both_handlers :
    onMessageDelegations cfgAllOn [] defaultCompiledPatterns msgBoth
      = [Delegation.keywordTrigger, Delegation.imageTrigger] := by decide

/-- C5 counterexample: the claim says that for `"thanks sillytavern"`
exclusion wins and `matchesKeyword` returns false.  In the code the
thanks-exclusion is anchored (`^\s*(?:thanks|谢谢|thx)\s*$`) and matches
only messages that are *entirely* a thanks, so `"thanks sillytavern"`
passes the exclusion scan and matches the `sillytavern` trigger:
`_contains_trigger_keywords` returns true. -/
theorem thanks_sillytavern_matches :
    containsTriggerKeywords true defaultCompiledPatterns
      (toText "thanks sillytavern") = true := by decide

/-- C5 (amended): the exclusion list is evaluated before any trigger
pattern and any exclusion match short-circuits the result to false; an
input that really matches an exclusion pattern *and* a trigger keyword,
such as the symbol-prefixed `"!sillytavern"`, yields false.
(`"thanks sillytavern"` matches no exclusion pattern, so it is not such an
input — see the counterexample.) -/
theorem exclusion_short_circuit :
    (∀ (compiled : List Rx) (text : Text),
        excludeCompiled.any (fun p => rsearch p text) = true →
        containsTriggerKeywords true compiled text = false)
    ∧ containsTriggerKeywords true defaultCompiledPatterns
        (toText "!sillytavern") = false := by
  constructor
  · intro compiled text h
    unfold containsTriggerKeywords
    by_cases he : (true = false ∨ text = [])
    · rw [if_pos he]
    · rw [if_neg he, if_pos h]
  · decide

/-- Witness for C5's amended theorem: `"@sillytavern"` matches the
symbol-prefix exclusion, so the short-circuit applies to it. -/
theorem exclusion_short_circuit_witness :
    containsTriggerKeywords true defaultCompiledPatterns
      (toText "@sillytavern") = false :=
  exclusion_short_circuit.1 defaultCompiledPatterns (toText "@sillytavern")
    (by decide)

/-- C6: on the trigger-originated path with a placeholder, a failing
placeholder edit falls back to one new reply on the original message, a
successful edit produces the edited placeholder, exactly one final answer
message results either way, and no unhandled error escapes (for any
combination of failures, including the fallback reply itself failing). -/
theorem placeholder_fallback_protocol :
    ∀ paged editFails : Bool,
      handleQuestionDelivery paged true true editFails false
          = (if editFails then [DeliveryEvent.sentReply]
             else [DeliveryEvent.editedPlaceholder])
        ∧ (handleQuestionDelivery paged true true editFails false).length = 1
        ∧ ∀ replyFails : Bool,
            DeliveryEvent.unhandled ∉
              handleQuestionDelivery paged true true editFails replyFails := by
  decide

/-- C7 counterexample: the claim says a malformed dynamic pattern is
skipped and the remaining well-formed dynamic patterns stay active.  In
the code the whole compilation comprehension is one `try:` body, so one
malformed pattern (here `"("`) makes the `except` handler fall back to the
built-in defaults alone and the well-formed dynamic pattern `"chatgpt"`
is no longer active. -/
theorem reload_drops_wellformed_dynamic :
    pyCompileOk (toText "chatgpt") = true
    ∧ pyCompileOk (toText "(") = false
    ∧ toText "chatgpt" ∉ loadDynamicKeywords [toText "chatgpt", toText "("] := by
  decide

/-- C7 (amended): a malformed dynamic pattern in the store does not crash
the reload — the failure is caught — but the reload then falls back to the
built-in defaults alone, dropping *all* dynamic patterns including the
well-formed ones; when every stored pattern compiles, the reload activates
defaults followed by the dynamic patterns. -/
theorem reload_fallback_semantics :
    (∀ store : List Text,
        (∃ p, p ∈ store ∧ pyCompileOk p = false) →
        loadDynamicKeywords store = defaultKeywordPatterns)
    ∧ (∀ store : List Text,
        store.all pyCompileOk = true →
        loadDynamicKeywords store = defaultKeywordPatterns ++ store) := by
  constructor
  · intro store h
    obtain ⟨p, hp, hbad⟩ := h
    unfold loadDynamicKeywords tryLoadKeywords
    have : (defaultKeywordPatterns ++ store).all pyCompileOk = false := by
      rw [List.all_eq_false]
      exact ⟨p, List.mem_append_right _ hp, by simp [hbad]⟩
    simp [this]
  · intro store h
    unfold loadDynamicKeywords tryLoadKeywords
    have : (defaultKeywordPatterns ++ store).all pyCompileOk = true := by
      rw [List.all_append, h, Bool.and_true]
      decide
    simp [this]

/-- Witness for C7's amended theorem at concrete stores. -/
theorem reload_fallback_semantics_witness :
    loadDynamicKeywords [toText "chatgpt", toText "("] = defaultKeywordPatterns
    ∧ loadDynamicKeywords [toText "chatgpt"]
        = defaultKeywordPatterns ++ [toText "chatgpt"] :=
  ⟨reload_fallback_semantics.1 [toText "chatgpt", toText "("]
      ⟨toText "(", by decide, by decide⟩,
    reload_fallback_semantics.2 [toText "chatgpt"] (by decide)⟩

/-- C8 counterexample: the claim says navigation is restricted to the
original requester and any other user's attempt leaves the view
unchanged.  `PaginationView` stores no requester identity and performs no
`interaction_check`, so a `next` press by `"bob"` on `"alice"`'s
three-page view moves the cursor from 0 to 1. -/
theorem foreign_user_navigation_changes_state :
    toText "bob" ≠ toText "alice"
    ∧ (initView [toText "p1", toText "p2", toText "p3"] (toText "alice")).currentPage
        = 0
    ∧ (applyAction (initView [toText "p1", toText "p2", toText "p3"] (toText "alice"))
        (toText "bob") NavAction.next).currentPage = 1 := by decide

/-- C8 (amended): navigation is *not* restricted to the triggering user —
the button callbacks never read the pressing user, so every user's action
produces exactly the same state transition. -/
theorem navigation_ignores_user :
    ∀ (v : PView) (u1 u2 : Text) (a : NavAction),
      applyAction v u1 a = applyAction v u2 a := by
  intro v u1 u2 a
  cases a <;> rfl

/-! ### Cache lemmas -/

theorem length_setPop (choose : List Nat → Nat) (c : List Nat) (h : c ≠ []) :
    (setPop choose c).length = c.length - 1 := by
  unfold setPop
  rw [if_neg h]
  have hlt : choose c % c.length < c.length :=
    Nat.mod_lt _ (List.length_pos.mpr h)
  have := List.length_eraseIdx_add_one (l := c) (i := choose c % c.length) hlt
  omega

theorem length_popN (choose : List Nat → Nat) :
    ∀ (n : Nat) (c : List Nat), (popN choose n c).length = c.length - n := by
  intro n
  induction n with
  | zero => intro c; rfl
  | succ n ih =>
    intro c
    show (popN choose n (setPop choose c)).length = c.length - (n + 1)
    by_cases hc : c = []
    · subst hc
      rw [show setPop choose [] = [] from rfl, ih]
      simp
    · rw [ih, length_setPop choose c hc]
      omega

theorem mem_setAdd_self (c : List Nat) (x : Nat) : x ∈ setAdd c x := by
  unfold setAdd
  by_cases h : x ∈ c
  · rwa [if_pos h]
  · rw [if_neg h]
    exact List.mem_append_right _ (List.mem_singleton.mpr rfl)

theorem length_setAdd_le (c : List Nat) (x : Nat) :
    (setAdd c x).length ≤ c.length + 1 := by
  unfold setAdd
  by_cases h : x ∈ c
  · rw [if_pos h]; omega
  · rw [if_neg h]; simp

theorem length_markMessageProcessed_le (choose : List Nat → Nat) (maxSize : Nat)
    (c : List Nat) (id : Nat) (h : c.length ≤ maxSize) :
    (markMessageProcessed choose maxSize c id).length ≤ maxSize := by
  unfold markMessageProcessed
  by_cases hg : maxSize < (setAdd c id).length
  · rw [if_pos hg, length_popN]
    have := length_setAdd_le c id
    omega
  · rw [if_neg hg]
    omega

theorem length_insertAll_le (choose : List Nat → Nat) (maxSize : Nat)
    (ids : List Nat) : (insertAll choose maxSize ids).length ≤ maxSize := by
  have aux : ∀ (l : List Nat) (c : List Nat), c.length ≤ maxSize →
      (l.foldl (markMessageProcessed choose maxSize) c).length ≤ maxSize := by
    intro l
    induction l with
    | nil => intro c hc; exact hc
    | cons a t ih =>
      intro c hc
      exact ih _ (length_markMessageProcessed_le choose maxSize c a hc)
  exact aux ids [] (Nat.zero_le _)

theorem markMessageProcessed_no_evict (choose : List Nat → Nat) (maxSize : Nat)
    (c : List Nat) (id : Nat) (h : c.length < maxSize) :
    markMessageProcessed choose maxSize c id = setAdd c id := by
  unfold markMessageProcessed
  rw [if_neg]
  have := length_setAdd_le c id
  omega

/-- Filling an initially empty cache with `0, 1, …, k-1` performs no
eviction and the contents are exactly `range k`, for any oracle. -/
theorem insertAll_range_no_evict (choose : List Nat → Nat) (maxSize : Nat) :
    ∀ k : Nat, k ≤ maxSize → insertAll choose maxSize (List.range k) = List.range k := by
  intro k
  induction k with
  | zero => intro _; rfl
  | succ k ih =>
    intro hk
    unfold insertAll at ih ⊢
    rw [List.range_succ, List.foldl_append, ih (by omega)]
    show markMessageProcessed choose maxSize (List.range k) k = _
    rw [markMessageProcessed_no_evict choose maxSize _ _ (by simpa using hk)]
    unfold setAdd
    rw [if_neg (by simp), ← List.range_succ]

/-- The `maxSize + 1`-st insertion of a fresh id triggers the eviction of
`maxSize + 1 - maxSize / 2` elements chosen by the oracle. -/
theorem insertAll_range_overflow (choose : List Nat → Nat) (maxSize : Nat) :
    insertAll choose maxSize (List.range (maxSize + 1))
      = popN choose (maxSize + 1 - maxSize / 2) (List.range (maxSize + 1)) := by
  unfold insertAll
  conv_lhs => rw [List.range_succ]
  rw [List.foldl_append]
  have h0 : List.foldl (markMessageProcessed choose maxSize) [] (List.range maxSize)
      = List.range maxSize := insertAll_range_no_evict choose maxSize maxSize le_rfl
  rw [h0]
  show markMessageProcessed choose maxSize (List.range maxSize) maxSize = _
  unfold markMessageProcessed
  have hadd : setAdd (List.range maxSize) maxSize = List.range (maxSize + 1) := by
    unfold setAdd
    rw [if_neg (by simp), ← List.range_succ]
  rw [hadd, if_pos (by simp)]
  rw [List.length_range]

theorem eraseIdx_concat (a : Nat) :
    ∀ l : List Nat, (l ++ [a]).eraseIdx l.length = l := by
  intro l
  induction l with
  | nil => rfl
  | cons b t ih =>
    show b :: ((t ++ [a]).eraseIdx t.length) = b :: t
    rw [ih]

theorem setPop_lastChoose (l : List Nat) (a : Nat) :
    setPop lastChoose (l ++ [a]) = l := by
  unfold setPop lastChoose
  rw [if_neg (by simp)]
  have hlen : (l ++ [a]).length = l.length + 1 := by simp
  have hidx : ((l ++ [a]).length - 1) % (l ++ [a]).length = l.length := by
    rw [hlen, Nat.add_sub_cancel]
    exact Nat.mod_eq_of_lt (Nat.lt_succ_self _)
  rw [hidx]
  exact eraseIdx_concat a l

theorem popN_lastChoose_range :
    ∀ (n m : Nat), n ≤ m → popN lastChoose n (List.range m) = List.range (m - n) := by
  intro n
  induction n with
  | zero => intro m _; rfl
  | succ n ih =>
    intro m hm
    obtain ⟨m', rfl⟩ : ∃ m', m = m' + 1 := ⟨m - 1, by omega⟩
    show popN lastChoose n (setPop lastChoose (List.range (m' + 1)))
        = List.range (m' + 1 - (n + 1))
    rw [List.range_succ, setPop_lastChoose, ih m' (by omega)]
    congr 1
    omega

theorem setPop_fifoChoose (a : Nat) (t : List Nat) :
    setPop fifoChoose (a :: t) = t := by
  unfold setPop fifoChoose
  rw [if_neg (by simp)]
  rfl

theorem popN_fifoChoose : ∀ (n : Nat) (l : List Nat),
    popN fifoChoose n l = l.drop n := by
  intro n
  induction n with
  | zero => intro l; rfl
  | succ n ih =>
    intro l
    cases l with
    | nil =>
      show popN fifoChoose n (setPop fifoChoose []) = List.drop (n + 1) []
      rw [show setPop fifoChoose [] = [] from rfl, ih]
      simp
    | cons a t =>
      show popN fifoChoose n (setPop fifoChoose (a :: t)) = (a :: t).drop (n + 1)
      rw [setPop_fifoChoose, ih]
      rfl

/-- C2 counterexample: the claim says the most recently inserted id is
still present after inserting `cache_max_size + 1` distinct ids.  The
eviction uses `set.pop()`, which removes an *arbitrary* element; with the
admissible eviction order that pops the newest element each time, the id
`1000` inserted last is gone after its own insertion's eviction step. -/
theorem cache_pop_can_evict_newest :
    (1000 : Nat) ∉ insertAll lastChoose 1000 (List.range 1001) := by
  have h : insertAll lastChoose 1000 (List.range 1001)
      = popN lastChoose 501 (List.range 1001) :=
    insertAll_range_overflow lastChoose 1000
  rw [h, popN_lastChoose_range 501 1001 (by omega)]
  simp

/-- C2 (amended): after every insertion the cache size is at most
`cache_max_size`, whatever elements `set.pop()` chooses to evict; and the
most recently inserted id survives the overflow eviction under an
oldest-first eviction order (here strict FIFO), though not under an
arbitrary one. -/
theorem cache_bound_and_fifo_newest :
    (∀ (choose : List Nat → Nat) (maxSize : Nat) (ids : List Nat),
        (insertAll choose maxSize ids).length ≤ maxSize)
    ∧ (1000 : Nat) ∈ insertAll fifoChoose 1000 (List.range 1001) := by
  constructor
  · exact length_insertAll_le
  · have h : insertAll fifoChoose 1000 (List.range 1001)
        = popN fifoChoose 501 (List.range 1001) :=
      insertAll_range_overflow fifoChoose 1000
    rw [h, popN_fifoChoose, List.range_succ,
      List.drop_append_of_le_length (by simp)]
    exact List.mem_append_right _ (List.mem_singleton.mpr rfl)

/-! ### C10: the dedup insertion precedes every fallible step -/

theorem shouldProcessMessage_false_of_mem (cfg : BotConfig) (processed : List Nat)
    (m : Msg) (h : m.id ∈ processed) :
    shouldProcessMessage cfg processed m = false := by
  unfold shouldProcessMessage
  by_cases h1 : m.authorIsBot = true
  · rw [if_pos h1]
  · rw [if_neg h1]
    by_cases h2 : (pyStrip m.content = [] ∧ m.attachments = [])
    · rw [if_pos h2]
    · rw [if_neg h2, if_pos h]

/-- C10: `_handle_keyword_trigger` inserts the message id into the
processed cache before the placeholder send, the trigger-event record and
the delegation; whichever of those later steps raises, the id is in the
cache afterwards (the `except` clause does not undo it), so
`_should_process_message` returns false for that message from then on even
though no answer was delivered.  The hypothesis says the cache is below
its bound, so the insertion itself is not evicted in the same call. -/
theorem mark_processed_precedes_delegation (choose : List Nat → Nat)
    (maxSize : Nat) (cache : List Nat) (m : Msg) (cfg : BotConfig)
    (fp : FailPoint) (h : cache.length < maxSize) :
    m.id ∈ (handleKeywordTrigger choose maxSize cache m fp).1
    ∧ (handleKeywordTrigger choose maxSize cache m fp).2.head? = some KTEvent.marked
    ∧ shouldProcessMessage cfg (handleKeywordTrigger choose maxSize cache m fp).1 m
        = false := by
  have hcache : (handleKeywordTrigger choose maxSize cache m fp).1
      = setAdd cache m.id := by
    cases fp <;>
      exact markMessageProcessed_no_evict choose maxSize cache m.id h
  have hmem : m.id ∈ (handleKeywordTrigger choose maxSize cache m fp).1 := by
    rw [hcache]; exact mem_setAdd_self cache m.id
  refine ⟨hmem, ?_, shouldProcessMessage_false_of_mem cfg _ m hmem⟩
  cases fp <;> rfl

/-- Witness for C10 at a concrete below-bound cache, a failing delegation
and the all-on configuration. -/
theorem mark_processed_precedes_delegation_witness :
    (100 : Nat) ∈ (handleKeywordTrigger fifoChoose 1000 [] msgBoth
        FailPoint.atDelegate).1
    ∧ (handleKeywordTrigger fifoChoose 1000 [] msgBoth
        FailPoint.atDelegate).2.head? = some KTEvent.marked
    ∧ shouldProcessMessage cfgAllOn
        (handleKeywordTrigger fifoChoose 1000 [] msgBoth FailPoint.atDelegate).1
        msgBoth = false :=
  mark_processed_precedes_delegation fifoChoose 1000 [] msgBoth cfgAllOn
    FailPoint.atDelegate (by decide)

/-! ### C9: the pagination view invariant -/

/-- The invariant of a `PaginationView`: `max_pages` tracks the page list,
the cursor stays in `[0, max_pages - 1]`, a single-page view has its
controls cleared, and on a multi-page view each edge button is disabled
exactly when the cursor sits at its edge. -/
def viewInvariant (v : PView) : Prop :=
  v.maxPages = v.pages.length
  ∧ v.currentPage < v.maxPages
  ∧ (v.maxPages ≤ 1 → v.itemsCleared = true)
  ∧ (1 < v.maxPages →
      v.firstDisabled = decide (v.currentPage = 0)
      ∧ v.prevDisabled = decide (v.currentPage = 0)
      ∧ v.nextDisabled = decide (v.currentPage = v.maxPages - 1)
      ∧ v.lastDisabled = decide (v.currentPage = v.maxPages - 1))

theorem viewInvariant_initView (pages : List Text) (uname : Text)
    (h : pages ≠ []) : viewInvariant (initView pages uname) := by
  have hpos : 0 < pages.length := List.length_pos.mpr h
  refine ⟨rfl, hpos, fun hle => decide_eq_true hle, fun h1 => ?_⟩
  have h1' : 1 < pages.length := h1
  have hne : ¬ ((0 : Nat) = pages.length - 1) := by omega
  exact ⟨(decide_eq_true rfl).symm, (decide_eq_true rfl).symm,
    (decide_eq_false hne).symm, (decide_eq_false hne).symm⟩

theorem viewInvariant_updateButtons (v : PView) (hm : v.maxPages = v.pages.length)
    (hc : v.currentPage < v.maxPages)
    (hclear : v.maxPages ≤ 1 → v.itemsCleared = true) :
    viewInvariant (updateButtons v) := by
  unfold updateButtons
  by_cases hle : v.maxPages ≤ 1
  · rw [if_pos hle]
    exact ⟨hm, hc, hclear, fun h1 => absurd h1 (by omega)⟩
  · rw [if_neg hle]
    exact ⟨hm, hc, hclear, fun _ => ⟨rfl, rfl, rfl, rfl⟩⟩

theorem viewInvariant_applyAction (v : PView) (u : Text) (a : NavAction)
    (h : viewInvariant v) : viewInvariant (applyAction v u a) := by
  obtain ⟨hm, hc, hclear, _hflags⟩ := h
  cases a
  case delete => exact ⟨hm, hc, hclear, _hflags⟩
  case first =>
    exact viewInvariant_updateButtons _ hm (by simpa using Nat.lt_of_le_of_lt (Nat.zero_le _) hc) hclear
  case prev =>
    refine viewInvariant_updateButtons _ hm ?_ hclear
    show (if 0 < v.currentPage then v.currentPage - 1 else v.currentPage) < v.maxPages
    split <;> omega
  case next =>
    refine viewInvariant_updateButtons _ hm ?_ hclear
    show (if v.currentPage < v.maxPages - 1 then v.currentPage + 1 else v.currentPage)
        < v.maxPages
    split <;> omega
  case last =>
    refine viewInvariant_updateButtons _ hm ?_ hclear
    show v.maxPages - 1 < v.maxPages
    omega

/-- C9: for any page list and any sequence of button presses (by any
users), the cursor of the resulting view stays in `[0, pageCount - 1]`,
the edge buttons are disabled exactly at their edges on multi-page views,
and a single-page view carries no navigation controls (`viewInvariant`
spells these out). -/
theorem pagination_view_invariant (pages : List Text) (uname : Text)
    (acts : List (Text × NavAction)) (h : pages ≠ []) :
    viewInvariant (applyActions (initView pages uname) acts) := by
  have aux : ∀ (l : List (Text × NavAction)) (v : PView), viewInvariant v →
      viewInvariant (applyActions v l) := by
    intro l
    induction l with
    | nil => intro v hv; exact hv
    | cons a t ih =>
      intro v hv
      exact ih _ (viewInvariant_applyAction v a.1 a.2 hv)
  exact aux acts _ (viewInvariant_initView pages uname h)

/-- Witness for C9: three `next` presses on a three-page view (the cursor
then rests at page 2 with the `next`/`last` buttons disabled, as the
invariant's edge clauses state). -/
theorem pagination_view_invariant_witness :
    viewInvariant (applyActions
      (initView [toText "p1", toText "p2", toText "p3"] (toText "alice"))
      [(toText "bob", NavAction.next), (toText "bob", NavAction.next),
        (toText "bob", NavAction.next)]) :=
  pagination_view_invariant [toText "p1", toText "p2", toText "p3"]
    (toText "alice")
    [(toText "bob", NavAction.next), (toText "bob", NavAction.next),
      (toText "bob", NavAction.next)] (by decide)

/-! ### Pagination lemmas -/

theorem splitNNAux_no_sep :
    ∀ (p acc : Text), '\n' ∉ p → splitNNAux p acc = [acc.reverse ++ p] := by
  intro p
  induction p with
  | nil => intro acc _; simp [splitNNAux]
  | cons c t ih =>
    intro acc hp
    have hc : c ≠ '\n' := fun he => hp (by simp [he])
    have ht : '\n' ∉ t := fun hm => hp (List.mem_cons_of_mem _ hm)
    cases t with
    | nil => simp [splitNNAux]
    | cons d r =>
      rw [show splitNNAux (c :: d :: r) acc
          = if c = '\n' ∧ d = '\n' then acc.reverse :: splitNNAux r []
            else splitNNAux (d :: r) (c :: acc) from rfl]
      rw [if_neg (fun hcd => hc hcd.1), ih (c :: acc) ht]
      simp

theorem splitNNAux_sep :
    ∀ (p acc rest : Text), '\n' ∉ p →
      splitNNAux (p ++ '\n' :: '\n' :: rest) acc
        = (acc.reverse ++ p) :: splitNN rest := by
  intro p
  induction p with
  | nil =>
    intro acc rest _
    rw [List.nil_append,
      show splitNNAux ('\n' :: '\n' :: rest) acc
          = if ('\n' : Char) = '\n' ∧ ('\n' : Char) = '\n'
            then acc.reverse :: splitNNAux rest []
            else splitNNAux ('\n' :: rest) ('\n' :: acc) from rfl,
      if_pos ⟨rfl, rfl⟩]
    rw [List.append_nil]
    rfl
  | cons c t ih =>
    intro acc rest hp
    have hc : c ≠ '\n' := fun he => hp (by simp [he])
    have ht : '\n' ∉ t := fun hm => hp (List.mem_cons_of_mem _ hm)
    cases t with
    | nil =>
      rw [show (([c] : Text) ++ '\n' :: '\n' :: rest) = c :: '\n' :: '\n' :: rest
          from rfl,
        show splitNNAux (c :: '\n' :: '\n' :: rest) acc
            = if c = '\n' ∧ ('\n' : Char) = '\n'
              then acc.reverse :: splitNNAux ('\n' :: rest) []
              else splitNNAux ('\n' :: '\n' :: rest) (c :: acc) from rfl,
        if_neg (fun hcd => hc hcd.1),
        show splitNNAux ('\n' :: '\n' :: rest) (c :: acc)
            = if ('\n' : Char) = '\n' ∧ ('\n' : Char) = '\n'
              then (c :: acc).reverse :: splitNNAux rest []
              else splitNNAux ('\n' :: rest) ('\n' :: c :: acc) from rfl,
        if_pos ⟨rfl, rfl⟩]
      rw [List.reverse_cons]
      rfl
    | cons d r =>
      rw [show ((c :: d :: r : Text) ++ '\n' :: '\n' :: rest)
          = c :: ((d :: r : Text) ++ '\n' :: '\n' :: rest) from rfl]
      have hdr : ∃ e q, ((d :: r : Text) ++ '\n' :: '\n' :: rest) = e :: q :=
        ⟨d, r ++ '\n' :: '\n' :: rest, rfl⟩
      obtain ⟨e, q, heq⟩ := hdr
      rw [heq,
        show splitNNAux (c :: e :: q) acc
            = if c = '\n' ∧ e = '\n' then acc.reverse :: splitNNAux q []
              else splitNNAux (e :: q) (c :: acc) from rfl,
        if_neg (fun hcd => hc hcd.1), ← heq, ih (c :: acc) rest ht]
      simp

theorem splitNN_sep (p rest : Text) (hp : '\n' ∉ p) :
    splitNN (p ++ '\n' :: '\n' :: rest) = p :: splitNN rest := by
  unfold splitNN
  rw [splitNNAux_sep p [] rest hp]
  rfl

theorem splitNN_no_sep (p : Text) (hp : '\n' ∉ p) : splitNN p = [p] := by
  unfold splitNN
  rw [splitNNAux_no_sep p [] hp]
  simp

theorem pyStripRight_append_nn (l : Text) :
    pyStripRight (l ++ nn) = pyStripRight l := by
  unfold pyStripRight nn
  rw [List.reverse_append,
    show (['\n', '\n'] : Text).reverse = ['\n', '\n'] from rfl,
    show ((['\n', '\n'] : Text) ++ l.reverse) = '\n' :: '\n' :: l.reverse from rfl,
    List.dropWhile_cons, if_pos (by decide), List.dropWhile_cons, if_pos (by decide)]

theorem pyStrip_append_nn (l : Text) : pyStrip (l ++ nn) = pyStrip l := by
  unfold pyStrip
  rw [pyStripRight_append_nn]

theorem dropWhile_replicate_of_neg (p : Char → Bool) (c : Char) (n : Nat)
    (h : p c = false) :
    (List.replicate n c).dropWhile p = List.replicate n c := by
  cases n with
  | zero => rfl
  | succ n =>
    rw [List.replicate_succ, List.dropWhile_cons, if_neg (by simp [h])]

theorem pyStrip_replicate (c : Char) (n : Nat) (h : isPyWS c = false) :
    pyStrip (List.replicate n c) = List.replicate n c := by
  unfold pyStrip pyStripRight
  rw [List.reverse_replicate, dropWhile_replicate_of_neg _ _ _ h,
    List.reverse_replicate, dropWhile_replicate_of_neg _ _ _ h]

theorem not_mem_replicate_of_ne {c a : Char} (n : Nat) (h : ¬ c = a) :
    c ∉ List.replicate n a := fun hm => h (List.mem_replicate.mp hm).2

theorem replicate_ne_nil_of_pos (c : Char) (n : Nat) (h : 0 < n) :
    List.replicate n c ≠ [] := by
  intro he
  have hl := congrArg List.length he
  rw [List.length_replicate] at hl
  simp only [List.length_nil] at hl
  omega

theorem append_nn_ne_nil (l : Text) : l ++ nn ≠ [] := fun h =>
  absurd (List.append_eq_nil.mp h).2 (by decide)

/-- C4: for every answer of length at most `pageSize`, `paginate` returns
the one-element sequence containing the answer unchanged; and for three
newline-free, strip-invariant paragraphs of 800 characters joined by blank
lines, the pages are exactly the three paragraphs in order (no ellipsis is
injected), so their concatenation reproduces the paragraphs in order. -/
theorem paginate_identity_and_roundtrip :
    (∀ (answer : Text) (pageSize : Nat), answer.length ≤ pageSize →
        createAnswerPages answer pageSize = [answer])
    ∧ (∀ p1 p2 p3 : Text,
        p1.length = 800 → p2.length = 800 → p3.length = 800 →
        '\n' ∉ p1 → '\n' ∉ p2 → '\n' ∉ p3 →
        pyStrip p1 = p1 → pyStrip p2 = p2 → pyStrip p3 = p3 →
        createAnswerPages (p1 ++ '\n' :: '\n' :: (p2 ++ '\n' :: '\n' :: p3)) 1000
          = [p1, p2, p3]) := by
  constructor
  · intro answer pageSize h
    unfold createAnswerPages
    rw [if_pos h]
  · intro p1 p2 p3 h1 h2 h3 n1 n2 n3 s1 s2 s3
    have hp1ne : p1 ++ nn ≠ [] := append_nn_ne_nil p1
    have hp2ne : p2 ++ nn ≠ [] := append_nn_ne_nil p2
    have hsplit : splitNN (p1 ++ '\n' :: '\n' :: (p2 ++ '\n' :: '\n' :: p3))
        = [p1, p2, p3] := by
      rw [splitNN_sep p1 _ n1, splitNN_sep p2 _ n2, splitNN_no_sep p3 n3]
    have st1 : answerPageStep 1000 ([], []) p1 = ([], p1 ++ nn) := by
      unfold answerPageStep
      rw [if_neg (by simp [h1])]
      simp
    have st2 : answerPageStep 1000 ([], p1 ++ nn) p2 = ([p1], p2 ++ nn) := by
      unfold answerPageStep
      rw [if_pos (by simp [nn, h1, h2]), if_neg hp1ne, pyStrip_append_nn, s1]
      simp
    have st3 : answerPageStep 1000 ([p1], p2 ++ nn) p3 = ([p1, p2], p3 ++ nn) := by
      unfold answerPageStep
      rw [if_pos (by simp [nn, h2, h3]), if_neg hp2ne, pyStrip_append_nn, s2]
      simp
    have hfold : List.foldl (answerPageStep 1000) ([], []) [p1, p2, p3]
        = ([p1, p2], p3 ++ nn) := by
      show answerPageStep 1000
        (answerPageStep 1000 (answerPageStep 1000 ([], []) p1) p2) p3 = _
      rw [st1, st2, st3]
    have hp3 : pyStrip (p3 ++ nn) = p3 := by rw [pyStrip_append_nn, s3]
    have hp3ne : p3 ≠ [] := by
      intro he
      rw [he] at h3
      simp at h3
    unfold createAnswerPages
    rw [if_neg (by simp [h1, h2, h3])]
    rw [hsplit, hfold]
    unfold emitPages
    rw [hp3]
    rw [if_neg hp3ne]
    rfl

/-- Witness for C4 at an answer of length 2 and at three concrete 800
character paragraphs. -/
theorem paginate_identity_and_roundtrip_witness :
    createAnswerPages (toText "hi") 1000 = [toText "hi"]
    ∧ createAnswerPages
        (List.replicate 800 'a'
          ++ '\n' :: '\n' :: (List.replicate 800 'b'
          ++ '\n' :: '\n' :: List.replicate 800 'c')) 1000
      = [List.replicate 800 'a', List.replicate 800 'b', List.replicate 800 'c'] :=
  ⟨paginate_identity_and_roundtrip.1 (toText "hi") 1000 (by simp [toText]),
    paginate_identity_and_roundtrip.2 (List.replicate 800 'a')
      (List.replicate 800 'b') (List.replicate 800 'c')
      (List.length_replicate 800 'a') (List.length_replicate 800 'b')
      (List.length_replicate 800 'c')
      (not_mem_replicate_of_ne 800 (by decide))
      (not_mem_replicate_of_ne 800 (by decide))
      (not_mem_replicate_of_ne 800 (by decide))
      (pyStrip_replicate 'a' 800 (by decide))
      (pyStrip_replicate 'b' 800 (by decide))
      (pyStrip_replicate 'c' 800 (by decide))⟩

/-- C3: the claim says every page has length at most `pageSize`.  The
forced hard split runs only when `current_page` is empty; a paragraph
longer than `pageSize` that arrives while `current_page` is non-empty is
emitted as one oversized page.  For `"a"*50 + "\n\n" + "b"*1500` the pages
are exactly `["a"*50, "b"*1500]`, the second of length 1500 > 1000. -/
theorem answer_pages_can_exceed_page_size :
    createAnswerPages
        (List.replicate 50 'a' ++ '\n' :: '\n' :: List.replicate 1500 'b') 1000
      = [List.replicate 50 'a', List.replicate 1500 'b']
    ∧ (List.replicate 1500 'b').length = 1500 := by
  constructor
  · have hsplit : splitNN (List.replicate 50 'a' ++ '\n' :: '\n' :: List.replicate 1500 'b')
        = [List.replicate 50 'a', List.replicate 1500 'b'] := by
      rw [splitNN_sep _ _ (not_mem_replicate_of_ne 50 (by decide)),
        splitNN_no_sep _ (not_mem_replicate_of_ne 1500 (by decide))]
    have st1 : answerPageStep 1000 ([], []) (List.replicate 50 'a')
        = ([], List.replicate 50 'a' ++ nn) := by
      unfold answerPageStep
      rw [if_neg (by rw [List.length_replicate]; decide)]
      rfl
    have st2 : answerPageStep 1000 ([], List.replicate 50 'a' ++ nn)
        (List.replicate 1500 'b')
        = ([List.replicate 50 'a'], List.replicate 1500 'b' ++ nn) := by
      unfold answerPageStep
      rw [if_pos (by rw [List.length_append, List.length_replicate,
            List.length_replicate]; decide),
        if_neg (append_nn_ne_nil (List.replicate 50 'a')), pyStrip_append_nn,
        pyStrip_replicate 'a' 50 (by decide)]
      rfl
    unfold createAnswerPages
    rw [if_neg (by rw [List.length_append, List.length_cons, List.length_cons,
      List.length_replicate, List.length_replicate]; decide)]
    rw [hsplit]
    rw [List.foldl_cons, st1, List.foldl_cons, st2, List.foldl_nil]
    unfold emitPages
    rw [pyStrip_append_nn, pyStrip_replicate 'b' 1500 (by decide),
      if_neg (replicate_ne_nil_of_pos 'b' 1500 (by decide))]
    rfl
  · exact List.length_replicate 1500 'b' 

end InsightBot

